import Mathlib

/-!
Shallow embedding of the HubSpot deals ETL engine
(`services/data_source.py` and `services/api_service.py`).

Python runtime values appearing in a deal's `properties` mapping are
modelled by `PValue`; JSON numbers are finite, so the `float` constructor
carries a rational.  A Python `datetime` argument only ever reaches the
output through `isoformat()`, so timestamps are modelled as the ISO
string itself.  Fallible Python code (expressions that can raise) is
modelled with `Except PyErr`.
-/

/-- Result of Python `float(...)`: a finite value, an infinity, or nan. -/
inductive PyFloat where
  | finite (q : ℚ)
  | inf
  | negInf
  | nan
deriving DecidableEq

/-- A Python value as it occurs in a deal's `properties` mapping. -/
inductive PValue where
  | null
  | str (s : String)
  | int (n : ℤ)
  | float (q : ℚ)
  | bool (b : Bool)
deriving DecidableEq

/-- Errors raised by the embedded code: Python exceptions and the typed
`HubSpotAPIError` variants raised by `api_service.py`. -/
inductive PyErr where
  | valueError
  | typeError
  | authFailed
  | forbidden
  | apiError (code : ℕ)
  | requestFailed
  | invalidCredentials
  | serverExhausted
deriving DecidableEq

/-- Numeric value of a digit string (most significant digit first). -/
def digitsToNat (cs : List Char) : ℕ :=
  cs.foldl (fun a c => a * 10 + (c.toNat - 48)) 0

/-- A nonempty list consisting only of decimal digits. -/
def isDigits (cs : List Char) : Bool :=
  !cs.isEmpty && cs.all (·.isDigit)

/-- Strip surrounding whitespace (the whitespace stripping Python's
`float`/`int` builtins apply to a string argument). -/
def trimChars (cs : List Char) : List Char :=
  ((cs.dropWhile Char.isWhitespace).reverse.dropWhile Char.isWhitespace).reverse

/-- Strip one optional leading sign; `true` means negative. -/
def stripSign : List Char → Bool × List Char
  | '-' :: rest => (true, rest)
  | '+' :: rest => (false, rest)
  | cs => (false, cs)

/-- Mantissa of a Python float literal: digits, optionally with one
decimal point; at least one digit overall (so `1.`, `.5`, `7` parse and
`.` does not). -/
def parseMantissa (cs : List Char) : Option ℚ :=
  match cs.span (fun c => c != '.') with
  | (ip, []) => if isDigits ip then some (mkRat (digitsToNat ip) 1) else none
  | (ip, _ :: fp) =>
    if ip.all (·.isDigit) && fp.all (·.isDigit) && !(ip.isEmpty && fp.isEmpty) then
      some (mkRat (digitsToNat ip * 10 ^ fp.length + digitsToNat fp) (10 ^ fp.length))
    else none

/-- Multiply a rational by `10 ^ e` or (when `eneg`) by `10 ^ (-e)`. -/
def scalePow10 (q : ℚ) (eneg : Bool) (e : ℕ) : ℚ :=
  if eneg then mkRat q.num (q.den * 10 ^ e) else mkRat (q.num * 10 ^ e) q.den

/-- Mantissa with an optional `e`/`E` exponent part. -/
def parseFloatCore (cs : List Char) : Option ℚ :=
  match cs.span (fun c => c != 'e' && c != 'E') with
  | (mant, []) => parseMantissa mant
  | (mant, _ :: ex) =>
    match stripSign ex with
    | (eneg, ed) =>
      if isDigits ed then
        match parseMantissa mant with
        | some m => some (scalePow10 m eneg (digitsToNat ed))
        | none => none
      else none

/-- Python `float(s)` on a string: strips surrounding whitespace, accepts an
optional sign, `inf`/`infinity`/`nan` (case-insensitive), or a decimal
literal with optional fraction and exponent.  `none` models `ValueError`. -/
def pyFloatParse (s : String) : Option PyFloat :=
  match stripSign (trimChars s.toList) with
  | (neg, body) =>
    let low := body.map Char.toLower
    if low = "inf".toList || low = "infinity".toList then
      some (if neg then .negInf else .inf)
    else if low = "nan".toList then some .nan
    else
      match parseFloatCore body with
      | some q => some (.finite (if neg then -q else q))
      | none => none

/-- Python `int(s)` on a string: optional surrounding whitespace and sign,
then decimal digits.  `none` models `ValueError`. -/
def pyIntParse (s : String) : Option ℤ :=
  match stripSign (trimChars s.toList) with
  | (neg, body) =>
    if isDigits body then
      some (if neg then -(digitsToNat body : ℤ) else (digitsToNat body : ℤ))
    else none

/-- Python truthiness of a `PValue` (used by the `or` operator). -/
def pyTruthy : PValue → Bool
  | .null => false
  | .str s => !s.isEmpty
  | .int n => n != 0
  | .float q => q != 0
  | .bool b => b

/-- Python `a or b`: `a` when truthy, else `b`. -/
def pyOr (a b : PValue) : PValue := if pyTruthy a then a else b

/-- Python builtin `int(...)` on a `PValue`.  A non-numeric string raises
`ValueError`; `None` raises `TypeError`; a float truncates toward zero. -/
def pyInt : PValue → Except PyErr ℤ
  | .null => .error .typeError
  | .bool b => .ok (if b then 1 else 0)
  | .int n => .ok n
  | .float q => .ok (if 0 ≤ q then ⌊q⌋ else ⌈q⌉)
  | .str s =>
    match pyIntParse s with
    | some n => .ok n
    | none => .error .valueError

/-- Python builtin `float(...)` on a `PValue`. -/
def pyFloat : PValue → Except PyErr PyFloat
  | .null => .error .typeError
  | .bool b => .ok (.finite (if b then 1 else 0))
  | .int n => .ok (.finite (n : ℚ))
  | .float q => .ok (.finite q)
  | .str s =>
    match pyFloatParse s with
    | some x => .ok x
    | none => .error .valueError

/-- The `properties` mapping of a raw deal: key/value pairs, first match
wins (Python dict keys are unique, so order is immaterial). -/
abbrev PropMap := List (String × PValue)

/-- `properties.get(k)`: `none` when the key is absent; note that a key
present with value `None` yields `some PValue.null`, which is distinct. -/
def getProp (m : PropMap) (k : String) : Option PValue :=
  match m with
  | [] => none
  | (k', v) :: rest => if k' = k then some v else getProp rest k

/-- Raw deal envelope from the HubSpot API (`data_source.py` reads it with
`deal.get(...)`, so every envelope field may be absent). -/
structure Deal where
  id : Option String
  archived : Option Bool
  createdAt : Option String
  updatedAt : Option String
  properties : PropMap
deriving DecidableEq

/-- The transformed record built by `transform_deal`.  Dict keys that start
with an underscore (`_tenant_id`, `_extracted_at`, `_scan_id`,
`_source_system`, `_api_version`, `_is_deleted`) are represented by the
fields `tenant_id`, `extracted_at_meta`, `scan_id`, `source_system`,
`api_version`, `is_deleted`. -/
structure Row where
  deal_id : Option String
  hs_object_id : Option String
  deal_name : PValue
  amount : Option PyFloat
  currency : PValue
  dealstage : PValue
  dealtype : PValue
  pipeline : PValue
  description : PValue
  owner_id : PValue
  hubspot_owner_id : PValue
  num_associated_contacts : ℤ
  num_associated_companies : ℤ
  hs_forecast_amount : Option PyFloat
  hs_forecast_probability : Option PyFloat
  is_archived : Bool
  archived : Bool
  hs_is_closed_won : Option Bool
  hs_is_closed_lost : Option Bool
  hs_priority : PValue
  close_date : PValue
  createdate : PValue
  hs_lastmodifieddate : PValue
  created_at : Option String
  updated_at : Option String
  raw_properties : PropMap
  extracted_at : String
  tenant_id : String
  extracted_at_meta : String
  scan_id : String
  source_system : String
  api_version : String
  is_deleted : Bool
deriving DecidableEq

/-- Helper `get_numeric` from `transform_deal`: `None`/`""` give `None`,
otherwise `float(value)` with `ValueError`/`TypeError` caught to `None`. -/
def get_numeric (v : PValue) : Option PyFloat :=
  if v = .null ∨ v = .str "" then none
  else
    match pyFloat v with
    | .ok x => some x
    | .error _ => none

/-- Helper `get_boolean` from `transform_deal`: `None`/`""` give `None`,
a bool passes through, otherwise `str(value).lower() == "true"` (the
`str()` image of an int or float is never `"true"`, hence `false`). -/
def get_boolean (v : PValue) : Option Bool :=
  if v = .null ∨ v = .str "" then none
  else
    match v with
    | .bool b => some b
    | .str s => some (s.toLower = "true")
    | _ => some false

/-- Helper `get_datetime` from `transform_deal`: `None`/`""` give `None`,
anything else is passed through verbatim. -/
def get_datetime (v : PValue) : PValue :=
  if v = .null ∨ v = .str "" then .null else v

/-- One associated-count entry of the transformed dict, e.g.
`int(properties.get("num_associated_contacts", 0) or 0)`. -/
def countValue (props : PropMap) (k : String) : Except PyErr ℤ :=
  pyInt (pyOr ((getProp props k).getD (.int 0)) (.int 0))

/-- `transform_deal(deal, tenant_id, scan_id, extracted_at)`.  The two
`int(...)` entries are the only expressions in the dict literal that can
raise; they are evaluated in source order.  `extracted_at` is the
`isoformat()` string of the timestamp argument. -/
def transform_deal (deal : Deal) (tenant_id scan_id extracted_at : String) :
    Except PyErr Row :=
  let props := deal.properties
  match countValue props "num_associated_contacts" with
  | .error e => .error e
  | .ok nac =>
    match countValue props "num_associated_companies" with
    | .error e => .error e
    | .ok nco =>
      .ok {
        deal_id := deal.id
        hs_object_id := deal.id
        deal_name := (getProp props "dealname").getD .null
        amount := get_numeric ((getProp props "amount").getD .null)
        currency := (getProp props "deal_currency_code").getD (.str "USD")
        dealstage := (getProp props "dealstage").getD .null
        dealtype := (getProp props "dealtype").getD .null
        pipeline := (getProp props "pipeline").getD .null
        description := (getProp props "description").getD .null
        owner_id := (getProp props "hubspot_owner_id").getD .null
        hubspot_owner_id := (getProp props "hubspot_owner_id").getD .null
        num_associated_contacts := nac
        num_associated_companies := nco
        hs_forecast_amount := get_numeric ((getProp props "hs_forecast_amount").getD .null)
        hs_forecast_probability := get_numeric ((getProp props "hs_forecast_probability").getD .null)
        is_archived := deal.archived.getD false
        archived := deal.archived.getD false
        hs_is_closed_won := get_boolean ((getProp props "hs_is_closed_won").getD .null)
        hs_is_closed_lost := get_boolean ((getProp props "hs_is_closed_lost").getD .null)
        hs_priority := (getProp props "hs_priority").getD .null
        close_date := get_datetime ((getProp props "closedate").getD .null)
        createdate := get_datetime ((getProp props "createdate").getD .null)
        hs_lastmodifieddate := get_datetime ((getProp props "hs_lastmodifieddate").getD .null)
        created_at := deal.createdAt
        updated_at := deal.updatedAt
        raw_properties := props
        extracted_at := extracted_at
        tenant_id := tenant_id
        extracted_at_meta := extracted_at
        scan_id := scan_id
        source_system := "hubspot"
        api_version := "v3"
        is_deleted := false
      }

/-- Outcome of one physical HTTP exchange with the server: a status code
(with an optional integral `Retry-After` header), a network timeout, or a
connection error. -/
inductive HttpResp where
  | status (code : ℕ) (retryAfter : Option ℕ)
  | timeout
  | connError
deriving DecidableEq

/-- The statuses in `status_forcelist` of the `Retry` strategy mounted by
`_create_session`. -/
def retryStatus (c : ℕ) : Bool :=
  c = 429 || c = 500 || c = 502 || c = 503 || c = 504

/-- `max_retries` default of `HubSpotAPIService.__init__`, passed to the
`Retry(total=...)` strategy. -/
def maxRetries : ℕ := 3

/-- What `session.request` hands back to `_make_request`: a response that
escaped the transport retry, or an exception, each with the responses the
server has not yet produced. -/
inductive SessOut where
  | ok (code : ℕ) (retryAfter : Option ℕ) (rest : List HttpResp)
  | retryError (rest : List HttpResp)
  | netFail (rest : List HttpResp)
  | exhausted
deriving DecidableEq

/-- Transport layer: `session.request` through the `HTTPAdapter` mounted by
`_create_session`.  Models `urllib3.util.retry.Retry(total=b,
status_forcelist=[429,500,502,503,504], allowed_methods=[...GET...])` for a
GET: a forcelisted status or a network failure is consumed and retried
while budget remains; once the budget is spent the next such outcome
raises (`RetryError` respectively a network exception); any other status
is returned to the caller.  The server is modelled as the list of
outcomes of successive physical attempts. -/
def sessionRequest : ℕ → List HttpResp → SessOut
  | _, [] => .exhausted
  | 0, .status c ra :: rest =>
    if retryStatus c then .retryError rest else .ok c ra rest
  | b + 1, .status c ra :: rest =>
    if retryStatus c then sessionRequest b rest else .ok c ra rest
  | 0, .timeout :: rest => .netFail rest
  | b + 1, .timeout :: rest => sessionRequest b rest
  | 0, .connError :: rest => .netFail rest
  | b + 1, .connError :: rest => sessionRequest b rest

/-- `sessionRequest` consumes at least one server outcome before handing a
response back, so the application-level recursion of `_make_request`
terminates on any finite server trace. -/
theorem sessionRequest_ok_length :
    ∀ (b : ℕ) (rs : List HttpResp) (c : ℕ) (ra : Option ℕ) (rest : List HttpResp),
      sessionRequest b rs = .ok c ra rest → rest.length < rs.length := by
  intro b rs
  induction rs generalizing b with
  | nil => intro c ra rest h; simp [sessionRequest] at h
  | cons r rs ih =>
    intro c ra rest h
    cases r with
    | status c' ra' =>
      cases b with
      | zero =>
        by_cases hr : retryStatus c' <;> simp [sessionRequest, hr] at h
        obtain ⟨-, -, h3⟩ := h
        simp [h3]
      | succ b' =>
        by_cases hr : retryStatus c' <;> simp [sessionRequest, hr] at h
        · exact Nat.lt_trans (ih b' c ra rest h) (Nat.lt_succ_self _)
        · obtain ⟨-, -, h3⟩ := h
          simp [h3]
    | timeout =>
      cases b with
      | zero => simp [sessionRequest] at h
      | succ b' =>
        simp only [sessionRequest] at h
        exact Nat.lt_trans (ih b' c ra rest h) (Nat.lt_succ_self _)
    | connError =>
      cases b with
      | zero => simp [sessionRequest] at h
      | succ b' =>
        simp only [sessionRequest] at h
        exact Nat.lt_trans (ih b' c ra rest h) (Nat.lt_succ_self _)

/-- `_make_request` for a GET: issues the request through the session,
maps 401/403 and other `>= 400` statuses to the corresponding
`HubSpotAPIError`s, turns transport exceptions into `HubSpotAPIError`, and
on an observed 429 sleeps `Retry-After` and re-issues the same request
recursively (no cap on this path in the application code). -/
def makeRequest (rs : List HttpResp) : Except PyErr (ℕ × List HttpResp) :=
  match h : sessionRequest maxRetries rs with
  | .exhausted => .error .serverExhausted
  | .retryError _ => .error .requestFailed
  | .netFail _ => .error .requestFailed
  | .ok c _ rest =>
    if c = 401 then .error .authFailed
    else if c = 403 then .error .forbidden
    else if c = 429 then makeRequest rest
    else if 400 ≤ c then .error (.apiError c)
    else .ok (c, rest)
termination_by rs.length
decreasing_by exact sessionRequest_ok_length maxRetries rs _ _ _ h

/-- Unfolding equation for `makeRequest` (it is defined by well-founded
recursion, so this is proved from its equation lemma). -/
theorem makeRequest_eq (rs : List HttpResp) :
    makeRequest rs =
      match sessionRequest maxRetries rs with
      | .exhausted => .error .serverExhausted
      | .retryError _ => .error .requestFailed
      | .netFail _ => .error .requestFailed
      | .ok c _ rest =>
        if c = 401 then .error .authFailed
        else if c = 403 then .error .forbidden
        else if c = 429 then makeRequest rest
        else if 400 ≤ c then .error (.apiError c)
        else .ok (c, rest) := by
  conv_lhs => rw [makeRequest]
  cases hs : sessionRequest maxRetries rs <;> simp

/-- `verify_credentials`: probe request (`GET /crm/v3/objects/deals?limit=1`);
every `HubSpotAPIError` is caught and turned into `False`. -/
def verify_credentials (probe : List HttpResp) : Bool :=
  match makeRequest probe with
  | .ok _ => true
  | .error _ => false

/-- JSON body of one successful page response:
`data.get("results", [])` and the presence of `paging.next.after`
(`next = none` models `"next" not in data.get("paging", {})`). -/
structure PageResp where
  results : List Deal
  next : Option String
deriving DecidableEq

/-- Rows yielded while transforming one page in source order; yielding
stops at the first deal whose transform raises. -/
def transformRows (t s e : String) : List Deal → List Row
  | [] => []
  | d :: ds =>
    match transform_deal d t s e with
    | .error _ => []
    | .ok r => r :: transformRows t s e ds

/-- The exception, if any, raised while transforming one page. -/
def transformErr (t s e : String) : List Deal → Option PyErr
  | [] => none
  | d :: ds =>
    match transform_deal d t s e with
    | .error er => some er
    | .ok _ => transformErr t s e ds

/-- Observable outcome of the `while True` pagination loop of
`extract_deals`: the rows yielded before the loop ended, the exception
propagated (if any), and the number of `get_deals` page requests issued. -/
structure LoopOut where
  rows : List Row
  err : Option PyErr
  requests : ℕ
deriving DecidableEq

/-- The pagination loop of `extract_deals`, driven by the successful page
bodies the server would return to successive `get_deals` calls: break on
an empty `results`, otherwise transform and yield each deal in order,
then break if `paging` has no `next`, else continue with the cursor.
The `[]` case (server trace exhausted with the loop still asking) is
flagged with `serverExhausted` and is unused by the theorems below. -/
def extractLoop (t s e : String) : List PageResp → LoopOut
  | [] => ⟨[], some .serverExhausted, 0⟩
  | p :: rest =>
    if p.results.isEmpty then ⟨[], none, 1⟩
    else
      match transformErr t s e p.results with
      | some er => ⟨transformRows t s e p.results, some er, 1⟩
      | none =>
        match p.next with
        | none => ⟨transformRows t s e p.results, none, 1⟩
        | some _ =>
          let o := extractLoop t s e rest
          ⟨transformRows t s e p.results ++ o.rows, o.err, o.requests + 1⟩

/-- Observable outcome of one run of the `extract_deals` generator. -/
structure ExtractOut where
  rows : List Row
  err : Option PyErr
  requests : ℕ
  closed : Bool
deriving DecidableEq

/-- The `extract_deals` generator: constructs the service, probes the
credentials, and on failure raises `Invalid HubSpot credentials` — this
`raise` sits before the `try`/`finally`, so `service.close()` does not run
(`closed := false`).  Only when the probe succeeds does the body enter the
`try` whose `finally` closes the session (`closed := true`). -/
def extract_deals (probe : List HttpResp) (pages : List PageResp)
    (tenant_id scan_id extracted_at : String) : ExtractOut :=
  if verify_credentials probe then
    let o := extractLoop tenant_id scan_id extracted_at pages
    ⟨o.rows, o.err, o.requests, true⟩
  else
    ⟨[], some .invalidCredentials, 0, false⟩

/-- `HubSpotAPIService.get_all_deals`: accumulates `results` of each page
and breaks only when `paging` has no `next` — unlike the loop in
`extract_deals` it has no break on an empty page.  Returns the collected
deals and the number of page requests issued. -/
def get_all_deals : List PageResp → List Deal × ℕ
  | [] => ([], 0)
  | p :: rest =>
    match p.next with
    | none => (p.results, 1)
    | some _ =>
      match get_all_deals rest with
      | (ds, n) => (p.results ++ ds, n + 1)

/-- Deal whose `num_associated_contacts` property is `None`. -/
def c1dealNull : Deal := ⟨some "1", none, none, none, [("num_associated_contacts", .null)]⟩

/-- Deal whose `num_associated_contacts` property is the empty string. -/
def c1dealEmpty : Deal := ⟨some "1", none, none, none, [("num_associated_contacts", .str "")]⟩

/-- Deal whose `num_associated_contacts` property is a non-numeric string. -/
def c1dealBad : Deal := ⟨some "1", none, none, none, [("num_associated_contacts", .str "not-a-number")]⟩

/-- C1: a null or empty associated-count property is coerced to 0, but a
non-numeric value makes `int(... or 0)` raise `ValueError` — `transform_deal`
aborts the row instead of degrading to 0 as the spec requires. -/
theorem transform_deal_count_nonnumeric_raises :
    ((transform_deal c1dealNull "t" "s" "ts").map Row.num_associated_contacts = .ok 0) ∧
    ((transform_deal c1dealEmpty "t" "s" "ts").map Row.num_associated_contacts = .ok 0) ∧
    (transform_deal c1dealBad "t" "s" "ts" = .error .valueError) :=
  ⟨rfl, rfl, rfl⟩

/-- C5: `get_numeric` never raises and maps null and the empty string to
null, a string the float parser accepts to exactly the parsed value, and a
string it rejects to null. -/
theorem get_numeric_spec (s : String) :
    get_numeric .null = none ∧
    get_numeric (.str "") = none ∧
    (∀ x, pyFloatParse s = some x → get_numeric (.str s) = some x) ∧
    (pyFloatParse s = none → get_numeric (.str s) = none) := by
  have hcond : ∀ t : String, t ≠ "" →
      ¬(PValue.str t = PValue.null ∨ PValue.str t = PValue.str "") := by
    rintro t ht (h1 | h2)
    · cases h1
    · exact ht (by injection h2)
  refine ⟨rfl, rfl, ?_, ?_⟩
  · intro x h
    have hs : s ≠ "" := by
      rintro rfl
      rw [show pyFloatParse "" = none from rfl] at h
      cases h
    unfold get_numeric
    rw [if_neg (hcond s hs)]
    simp [pyFloat, h]
  · intro h
    by_cases hs : s = ""
    · subst hs; rfl
    · unfold get_numeric
      rw [if_neg (hcond s hs)]
      simp [pyFloat, h]

/-- Witness for C5 at concrete inputs. -/
theorem get_numeric_spec_witness :
    get_numeric (.str "100.50") = some (.finite (mkRat 201 2)) ∧
    get_numeric (.str "abc") = none :=
  ⟨(get_numeric_spec "100.50").2.2.1 _ (by decide),
   (get_numeric_spec "abc").2.2.2 (by decide)⟩

/-- C6: `transform_deal` is a pure function of its four arguments — two
calls on equal inputs give equal outputs (the embedding is side-effect
free by construction, mirroring the source, which only reads its
arguments). -/
theorem transform_deal_deterministic (d₁ d₂ : Deal) (t₁ t₂ s₁ s₂ e₁ e₂ : String)
    (hd : d₁ = d₂) (ht : t₁ = t₂) (hs : s₁ = s₂) (he : e₁ = e₂) :
    transform_deal d₁ t₁ s₁ e₁ = transform_deal d₂ t₂ s₂ e₂ := by
  rw [hd, ht, hs, he]

/-- Deal used to witness C6. -/
def c6deal : Deal :=
  ⟨some "7", some true, some "2024-01-01T00:00:00Z", none,
   [("dealname", .str "Acme"), ("amount", .str "100.50")]⟩

/-- Witness for C6 at a concrete deal. -/
theorem transform_deal_deterministic_witness :
    transform_deal c6deal "tenant-1" "scan-1" "ts" =
      transform_deal c6deal "tenant-1" "scan-1" "ts" :=
  transform_deal_deterministic c6deal c6deal "tenant-1" "tenant-1" "scan-1" "scan-1"
    "ts" "ts" rfl rfl rfl rfl

/-- Deal whose envelope has no `id` key. -/
def c8dealNoId : Deal := ⟨none, none, none, none, [("dealname", .str "no envelope id")]⟩

/-- C8 counterexample: on a raw record without an envelope `id`,
`transform_deal` succeeds and the produced row's `deal_id` is null, so
`deal_id` is not non-null for all raw records. -/
theorem transform_deal_missing_id_null :
    (transform_deal c8dealNoId "t" "s" "ts").map Row.deal_id = .ok none := rfl

/-- C8 amended: `deal_id` is the envelope id passed through unchanged —
non-null exactly when the envelope carries an id. -/
theorem transform_deal_id_passthrough (d : Deal) (t s e : String)
    (h : (transform_deal d t s e).isOk = true) :
    (transform_deal d t s e).map Row.deal_id = .ok d.id := by
  cases h1 : countValue d.properties "num_associated_contacts" with
  | error er => simp [transform_deal, h1, Except.isOk, Except.toBool] at h
  | ok nac =>
    cases h2 : countValue d.properties "num_associated_companies" with
    | error er => simp [transform_deal, h1, h2, Except.isOk, Except.toBool] at h
    | ok nco => simp [transform_deal, h1, h2, Except.map]

/-- Deal with envelope id `"42"`. -/
def c8dealWithId : Deal := ⟨some "42", none, none, none, []⟩

/-- Witness for C8's amended claim at a concrete deal. -/
theorem transform_deal_id_passthrough_witness :
    (transform_deal c8dealWithId "t" "s" "ts").map Row.deal_id = .ok (some "42") :=
  transform_deal_id_passthrough c8dealWithId "t" "s" "ts" (by decide)

/-- Deal whose `deal_currency_code` property is present with value `None`. -/
def c9dealNullCurrency : Deal := ⟨some "9", none, none, none, [("deal_currency_code", .null)]⟩

/-- C9 counterexample: `properties.get("deal_currency_code", "USD")`
defaults only when the key is missing; a present null value is passed
through, so the row's currency is null, not `"USD"`. -/
theorem transform_deal_currency_null_not_usd :
    ((transform_deal c9dealNullCurrency "t" "s" "ts").map Row.currency = .ok .null) ∧
    PValue.null ≠ PValue.str "USD" :=
  ⟨rfl, by decide⟩

/-- C9 amended: the currency field is the `deal_currency_code` value when
the key is present (even null or empty), and `"USD"` only when the key is
absent from the properties mapping. -/
theorem transform_deal_currency_default (d : Deal) (t s e : String)
    (h : (transform_deal d t s e).isOk = true) :
    (transform_deal d t s e).map Row.currency =
      .ok ((getProp d.properties "deal_currency_code").getD (.str "USD")) := by
  cases h1 : countValue d.properties "num_associated_contacts" with
  | error er => simp [transform_deal, h1, Except.isOk, Except.toBool] at h
  | ok nac =>
    cases h2 : countValue d.properties "num_associated_companies" with
    | error er => simp [transform_deal, h1, h2, Except.isOk, Except.toBool] at h
    | ok nco => simp [transform_deal, h1, h2, Except.map]

/-- Deal with no `deal_currency_code` key at all. -/
def c9dealNoCurrency : Deal := ⟨some "9", none, none, none, [("dealname", .str "d")]⟩

/-- Witness for C9's amended claim at a concrete deal. -/
theorem transform_deal_currency_default_witness :
    (transform_deal c9dealNoCurrency "t" "s" "ts").map Row.currency = .ok (.str "USD") :=
  transform_deal_currency_default c9dealNoCurrency "t" "s" "ts" (by decide)

/-- Server trace answering 429 (with `Retry-After: 1`) to every attempt. -/
def always429 : List HttpResp := List.replicate 10 (.status 429 (some 1))

/-- C2: the 429 path is not unbounded.  429 is in the transport retry's
`status_forcelist`, so for a GET the session itself consumes 429 responses
against the `total=3` budget: with a server that keeps answering 429, the
transport gives up after four attempts (six of the ten server outcomes are
never requested) and `_make_request` surfaces a request-failed
`HubSpotAPIError` instead of re-issuing forever.  The application-level
recursive 429 handler never observes a 429 on this path. -/
theorem rate_limit_429_bounded :
    sessionRequest maxRetries always429 =
      .retryError (List.replicate 6 (HttpResp.status 429 (some 1))) ∧
    makeRequest always429 = .error .requestFailed := by
  refine ⟨rfl, ?_⟩
  rw [makeRequest_eq]
  rfl

/-- Probe trace: the credential probe receives HTTP 401. -/
def probe401 : List HttpResp := [.status 401 none]

/-- A page the server would have served had the probe succeeded. -/
def c3page : PageResp := ⟨[⟨some "1", none, none, none, []⟩], none⟩

/-- C3: when the credential probe fails, the generator raises the
invalid-credentials error before entering the `try`/`finally`, so
`service.close()` never runs on this exit path: the stream ends with the
session not closed and no row yielded. -/
theorem probe_failure_skips_close :
    (extract_deals probe401 [c3page] "t" "s" "ts").closed = false ∧
    (extract_deals probe401 [c3page] "t" "s" "ts").rows = [] ∧
    (extract_deals probe401 [c3page] "t" "s" "ts").err = some .invalidCredentials := by
  have h401 : verify_credentials probe401 = false := by
    unfold verify_credentials
    rw [makeRequest_eq]
    rfl
  refine ⟨?_, ?_, ?_⟩ <;> simp [extract_deals, h401]

/-- C10: rows are yielded only when the probe succeeds — if the probe
request fails with any `HubSpotAPIError` (401/403, other 4xx/5xx, network
timeout or connection failure alike), `verify_credentials` returns false
and the stream raises `Invalid HubSpot credentials` with no rows; and a
nonempty row stream conversely implies the probe succeeded. -/
theorem probe_gates_rows (probe : List HttpResp) (pages : List PageResp) (t s e : String) :
    ((makeRequest probe).isOk = false →
      verify_credentials probe = false ∧
      (extract_deals probe pages t s e).rows = [] ∧
      (extract_deals probe pages t s e).err = some .invalidCredentials) ∧
    ((extract_deals probe pages t s e).rows ≠ [] → verify_credentials probe = true) := by
  constructor
  · intro h
    have hv : verify_credentials probe = false := by
      unfold verify_credentials
      cases hm : makeRequest probe with
      | ok v => rw [hm] at h; simp [Except.isOk, Except.toBool] at h
      | error er => simp
    exact ⟨hv, by simp [extract_deals, hv], by simp [extract_deals, hv]⟩
  · intro h
    cases hv : verify_credentials probe with
    | true => rfl
    | false => exact absurd (by simp [extract_deals, hv]) h

/-- Probe trace of persistent network timeouts: a transient-failure
`HubSpotAPIError`, not an authentication error. -/
def probeTimeouts : List HttpResp := [.timeout, .timeout, .timeout, .timeout]

/-- Witness for C10: a probe that keeps timing out blocks the stream. -/
theorem probe_gates_rows_witness :
    verify_credentials probeTimeouts = false ∧
    (extract_deals probeTimeouts [] "t" "s" "ts").rows = [] ∧
    (extract_deals probeTimeouts [] "t" "s" "ts").err = some .invalidCredentials :=
  (probe_gates_rows probeTimeouts [] "t" "s" "ts").1 (by rw [makeRequest_eq]; rfl)

/-- Every row a successful `transform_deal` call produces carries the
scan id, tenant id and extraction timestamp it was called with. -/
theorem transform_deal_metadata (d : Deal) (t s e : String) (r : Row)
    (h : transform_deal d t s e = .ok r) :
    r.scan_id = s ∧ r.extracted_at = e ∧ r.extracted_at_meta = e ∧ r.tenant_id = t := by
  cases h1 : countValue d.properties "num_associated_contacts" with
  | error er => simp [transform_deal, h1] at h
  | ok nac =>
    cases h2 : countValue d.properties "num_associated_companies" with
    | error er => simp [transform_deal, h1, h2] at h
    | ok nco =>
      simp only [transform_deal, h1, h2, Except.ok.injEq] at h
      subst h
      exact ⟨rfl, rfl, rfl, rfl⟩

/-- Every row in the yielded prefix of a page comes from a successful
transform of one of its deals. -/
theorem transformRows_mem (t s e : String) :
    ∀ (ds : List Deal) (r : Row), r ∈ transformRows t s e ds →
      ∃ d, transform_deal d t s e = .ok r := by
  intro ds
  induction ds with
  | nil => intro r hr; simp [transformRows] at hr
  | cons d ds ih =>
    intro r hr
    simp only [transformRows] at hr
    cases hd : transform_deal d t s e with
    | error er => rw [hd] at hr; simp at hr
    | ok row =>
      rw [hd] at hr
      simp only [List.mem_cons] at hr
      rcases hr with rfl | hr
      · exact ⟨d, hd⟩
      · exact ih r hr

/-- Every row the pagination loop yields comes from a successful
transform of some raw deal. -/
theorem extractLoop_mem (t s e : String) :
    ∀ (pages : List PageResp) (r : Row), r ∈ (extractLoop t s e pages).rows →
      ∃ d, transform_deal d t s e = .ok r := by
  intro pages
  induction pages with
  | nil => intro r hr; simp [extractLoop] at hr
  | cons p rest ih =>
    intro r hr
    simp only [extractLoop] at hr
    by_cases hemp : p.results.isEmpty = true
    · simp [hemp] at hr
    · simp only [hemp, if_neg, Bool.false_eq_true, reduceIte] at hr
      cases he : transformErr t s e p.results with
      | some er =>
        rw [he] at hr
        exact transformRows_mem t s e p.results r hr
      | none =>
        rw [he] at hr
        cases hn : p.next with
        | none =>
          rw [hn] at hr
          exact transformRows_mem t s e p.results r hr
        | some c =>
          rw [hn] at hr
          simp only [List.mem_append] at hr
          rcases hr with hr | hr
          · exact transformRows_mem t s e p.results r hr
          · exact ih r hr

/-- C7: every row yielded by one run of the extraction stream carries the
run's single scan id and its extraction timestamp — computed once before
the first page request — in both the `extracted_at` and `_extracted_at`
fields. -/
theorem extract_rows_tagged (probe : List HttpResp) (pages : List PageResp)
    (t s e : String) (r : Row)
    (h : r ∈ (extract_deals probe pages t s e).rows) :
    r.scan_id = s ∧ r.extracted_at = e ∧ r.extracted_at_meta = e := by
  by_cases hv : verify_credentials probe = true
  · simp only [extract_deals, hv, if_pos] at h
    obtain ⟨d, hd⟩ := extractLoop_mem t s e pages r h
    obtain ⟨h1, h2, h3, -⟩ := transform_deal_metadata d t s e r hd
    exact ⟨h1, h2, h3⟩
  · simp [extract_deals, hv] at h

/-- Probe trace: the credential probe receives HTTP 200. -/
def probeOk : List HttpResp := [.status 200 none]

/-- Deal used to witness C7. -/
def c7deal : Deal := ⟨some "42", none, none, none, []⟩

/-- Single page used to witness C7. -/
def c7page : PageResp := ⟨[c7deal], none⟩

/-- The row `transform_deal` produces for `c7deal` under tenant `"t"`,
scan `"sc"`, timestamp `"ts"`. -/
def c7row : Row :=
  ⟨some "42", some "42", .null, none, .str "USD", .null, .null, .null, .null,
   .null, .null, 0, 0, none, none, false, false, none, none, .null, .null,
   .null, .null, none, none, [], "ts", "t", "ts", "sc", "hubspot", "v3", false⟩

/-- Witness for C7: the row yielded by a concrete one-page run carries the
run's scan id and timestamp. -/
theorem extract_rows_tagged_witness :
    c7row.scan_id = "sc" ∧ c7row.extracted_at = "ts" ∧ c7row.extracted_at_meta = "ts" := by
  have hv : verify_credentials probeOk = true := by
    unfold verify_credentials
    rw [makeRequest_eq]
    rfl
  have hmem : c7row ∈ (extract_deals probeOk [c7page] "t" "sc" "ts").rows := by
    simp only [extract_deals, hv, if_pos]
    decide
  exact extract_rows_tagged probeOk [c7page] "t" "sc" "ts" c7row hmem

/-- When no transform on a page raises, the loop yields one row per raw
record of the page. -/
theorem transformRows_length (t s e : String) :
    ∀ ds : List Deal, transformErr t s e ds = none →
      (transformRows t s e ds).length = ds.length := by
  intro ds
  induction ds with
  | nil => intro _; rfl
  | cons d ds ih =>
    intro h
    simp only [transformErr] at h
    cases hd : transform_deal d t s e with
    | error er => simp [hd] at h
    | ok r =>
      rw [hd] at h
      simp only [transformRows, hd, List.length_cons]
      rw [ih h]

/-- C4 amended, general form (the loop of `extract_deals`): if the first
`k` page responses each carry records and a next cursor, and response
`k + 1` is the first to signal exhaustion — an empty `results` list or a
missing next cursor, whichever occurs first — then the loop makes exactly
`k + 1` page requests, propagates no error, and yields one row per record
of the pages it consumed; a page that stops the loop by being empty
contributes no rows, while a page that stops it by lacking a cursor
contributes all its records. -/
theorem extractLoop_pagination (t s e : String) :
    ∀ (pre : List PageResp) (last : PageResp) (post : List PageResp),
      (∀ p ∈ pre, p.results ≠ [] ∧ p.next ≠ none) →
      (last.results = [] ∨ last.next = none) →
      (∀ p ∈ pre, transformErr t s e p.results = none) →
      transformErr t s e last.results = none →
      (extractLoop t s e (pre ++ last :: post)).requests = pre.length + 1 ∧
      (extractLoop t s e (pre ++ last :: post)).err = none ∧
      (extractLoop t s e (pre ++ last :: post)).rows.length =
        (pre.map fun p => p.results.length).sum +
          (if last.results = [] then 0 else last.results.length) := by
  intro pre
  induction pre with
  | nil =>
    intro last post _ hstop _ hoklast
    by_cases hemp : last.results = []
    · have hb : last.results.isEmpty = true := by simp [hemp]
      simp [extractLoop, hb, hemp]
    · have hnext : last.next = none := hstop.resolve_left hemp
      have hb : last.results.isEmpty = false := by
        simpa [List.isEmpty_iff] using hemp
      simp [extractLoop, hb, hoklast, hnext, hemp,
        transformRows_length t s e last.results hoklast]
  | cons p pre ih =>
    intro last post hpre hstop hokpre hoklast
    have hp := hpre p (List.mem_cons_self p pre)
    have hperr : transformErr t s e p.results = none :=
      hokpre p (List.mem_cons_self p pre)
    have hb : p.results.isEmpty = false := by
      simpa [List.isEmpty_iff] using hp.1
    obtain ⟨c, hc⟩ := Option.ne_none_iff_exists'.mp hp.2
    have ihh := ih last post
      (fun q hq => hpre q (List.mem_cons_of_mem p hq)) hstop
      (fun q hq => hokpre q (List.mem_cons_of_mem p hq)) hoklast
    refine ⟨?_, ?_, ?_⟩
    · simp only [List.cons_append, extractLoop, hb, hperr, hc,
        Bool.false_eq_true, reduceIte]
      simp [ihh.1]
    · simp only [List.cons_append, extractLoop, hb, hperr, hc,
        Bool.false_eq_true, reduceIte]
      simp [ihh.2.1]
    · simp only [List.cons_append, extractLoop, hb, hperr, hc,
        Bool.false_eq_true, reduceIte]
      have hlen := ihh.2.2
      simp only [List.length_append, List.map_cons, List.sum_cons,
        transformRows_length t s e p.results hperr]
      simp only [List.append_eq] at hlen ⊢
      omega

/-- Deal used in the C4 scenarios (all transforms succeed on it). -/
def c4deal : Deal := ⟨some "d", none, none, none, []⟩

/-- First page of the 100/100/37 scenario. -/
def c4page1 : PageResp := ⟨List.replicate 100 c4deal, some "a"⟩

/-- Second page of the 100/100/37 scenario. -/
def c4page2 : PageResp := ⟨List.replicate 100 c4deal, some "b"⟩

/-- Third page of the 100/100/37 scenario: 37 records, no next cursor. -/
def c4page3 : PageResp := ⟨List.replicate 37 c4deal, none⟩

/-- Witness for C4's amended claim: three pages of 100, 100 and 37
records with no next cursor on the third yield exactly 237 rows across
exactly 3 page requests. -/
theorem extractLoop_pagination_witness :
    (extractLoop "t" "s" "ts" [c4page1, c4page2, c4page3]).requests = 3 ∧
    (extractLoop "t" "s" "ts" [c4page1, c4page2, c4page3]).err = none ∧
    (extractLoop "t" "s" "ts" [c4page1, c4page2, c4page3]).rows.length = 237 := by
  have h := extractLoop_pagination "t" "s" "ts" [c4page1, c4page2] c4page3 []
    (by decide) (by decide) (by decide) (by decide)
  exact ⟨h.1.trans (by decide), h.2.1, (h.2.2).trans (by decide)⟩

/-- Server trace whose first page is empty but still carries a cursor. -/
def c4emptyWithCursor : List PageResp := [⟨[], some "cursor"⟩, ⟨[c4deal], none⟩]

/-- C4 counterexample: `get_all_deals` has no empty-page break — on an
empty first page that carries a next cursor it issues a second request
and returns the second page's record, so that paginated extraction does
not terminate as soon as a page contains zero records. -/
theorem get_all_deals_ignores_empty_page :
    get_all_deals c4emptyWithCursor = ([c4deal], 2) := rfl
